import Mathlib

/-!
Verification of the documentation extraction-and-rendering pipeline in
`scripts/generate_docs.py`: doc-comment block parsing, source-file scanning,
category grouping, signature tokenization, anchor generation and HTML
rendering.

Strings are modelled as `List Char` (`Str`), and the Python string
operations the script uses (`strip`, `startswith`, `in`, `replace`,
`find`, `split`, `join`, `lower`) are given executable models below.
The models are ASCII-faithful: Python's Unicode-aware `\w`, `\s`,
`str.lower` and `str.strip` agree with these models on ASCII text, which
is the alphabet of the script's own literals; the divergence on exotic
Unicode input is a deliberate modelling boundary.
-/

/-- Strings as explicit character lists. -/
abbrev Str := List Char

/-- Python `\s` / `str.isspace` on ASCII: space, tab, newline, carriage
return, vertical tab, form feed. -/
def pyIsSpace (c : Char) : Bool :=
  c = ' ' || c = '\t' || c = '\n' || c = '\r' || c = '\x0b' || c = '\x0c'

/-- Drop elements of `l` from the right while `p` holds. -/
def dropWhileRight (p : Char → Bool) (l : Str) : Str :=
  (l.reverse.dropWhile p).reverse

/-- Python `str.strip()`: remove whitespace from both ends. -/
def pyStrip (s : Str) : Str :=
  dropWhileRight pyIsSpace (s.dropWhile pyIsSpace)

/-- Python `str.startswith(pat)`. -/
def pyStartsWith (s pat : Str) : Bool :=
  pat.isPrefixOf s

/-- Worker for `containsSub`, structural in `s`. -/
def containsSubGo (pat : Str) : Str → Bool
  | [] => pat.isEmpty
  | c :: rest => pat.isPrefixOf (c :: rest) || containsSubGo pat rest

/-- Python `pat in s` (substring containment). -/
def containsSub (pat s : Str) : Bool :=
  containsSubGo pat s

/-- Worker for `removeAll`: fuel-bounded so the recursion is structural
(the fuel `s.length` always suffices because each step consumes at least
one character; the `0` branch is unreachable for nonempty `s`). -/
def removeAllGo (pat : Str) : Nat → Str → Str
  | 0, s => s
  | _ + 1, [] => []
  | n + 1, c :: rest =>
      if pat.isPrefixOf (c :: rest) then
        removeAllGo pat n ((c :: rest).drop pat.length)
      else
        c :: removeAllGo pat n rest

/-- Python `s.replace(pat, "")`: remove all non-overlapping occurrences of
`pat`, scanning left to right.  (`generate_docs.py` only ever replaces with
the empty string; a literal `s.replace("", "")` is the identity there and
here.) -/
def removeAll (s pat : Str) : Str :=
  if pat.isEmpty then s else removeAllGo pat s.length s

/-- Worker for `splitChar`; the result list is always nonempty. -/
def splitCharGo (sep : Char) : Str → List Str
  | [] => [[]]
  | c :: rest =>
      match splitCharGo sep rest with
      | h :: t => if c = sep then [] :: h :: t else (c :: h) :: t
      | [] => [[c]]

/-- Python `s.split(sep)` for a single-character separator (used with
`"\n"` and `","`): empty pieces are kept, `"".split(sep) = [""]`. -/
def splitChar (sep : Char) (s : Str) : List Str :=
  splitCharGo sep s

/-- Python `" ".join(xs)`. -/
def joinSpace (xs : List Str) : Str :=
  List.intercalate [' '] xs

/-- First index of substring `pat` in `s` (Python `s.find(pat)` when the
result is non-negative; `none` models `-1`). -/
def findSub (pat : Str) : Str → Option Nat
  | [] => if pat.isEmpty then some 0 else none
  | c :: rest =>
      if pat.isPrefixOf (c :: rest) then some 0
      else (findSub pat rest).map (· + 1)

/-- ASCII model of Python `str.lower`: map `A`–`Z` to `a`–`z`, leave
every other character unchanged. -/
def asciiLower (c : Char) : Char :=
  if h : 65 ≤ c.toNat ∧ c.toNat ≤ 90 then
    Char.ofNatAux (c.toNat + 32) (Or.inl (by omega))
  else c

/-- Python `str.lower` applied to a whole string (ASCII model). -/
def pyLower (s : Str) : Str :=
  s.map asciiLower

-- ── Doc comment parser (`parse_doc_blocks`) ─────────────────────────────────

/-- One documented unit, mirroring class `DocEntry`. -/
structure DocEntry where
  kind : Str := []
  signature : Str := []
  name : Str := []
  category : Str := []
  description : Str := []
  examples : List Str := []
deriving DecidableEq, Repr

/-- The entry being accumulated while the parser is inside a doc block:
the entry fields set so far plus the buffer `desc_lines`. -/
structure BlockState where
  entry : DocEntry
  descLines : List Str
deriving DecidableEq, Repr

/-- Close a block: `entry.description = " ".join(desc_lines)`. -/
def finishBlock (st : BlockState) : DocEntry :=
  { st.entry with description := joinSpace st.descLines }

/-- Start of a doc block (`parse_doc_blocks`, outer loop condition): the
stripped line starts with `///` and contains `@builtin` or `@method`. -/
def isBlockStart (l : Str) : Bool :=
  let line := pyStrip l
  pyStartsWith line ("///".data) &&
    (containsSub ("@builtin".data) line || containsSub ("@method".data) line)

/-- Process the first line of a doc block: set `kind`, `signature` and the
derived `name` (text before the first `(`, stripped). -/
def startBlock (l : Str) : BlockState :=
  let line := pyStrip l
  let content := pyStrip (line.drop 3)
  let (kind, signature) :=
    if containsSub ("@builtin".data) content then
      (("builtin".data : Str), pyStrip (removeAll content ("@builtin".data)))
    else if containsSub ("@method".data) content then
      (("method".data : Str), pyStrip (removeAll content ("@method".data)))
    else (([] : Str), ([] : Str))
  let name :=
    match signature.findIdx? (· = '(') with
    | some i => pyStrip (signature.take i)
    | none => pyStrip signature
  ⟨{ kind := kind, signature := signature, name := name }, []⟩

/-- Process one continuation line of a doc block (a line whose stripped
form starts with `///`): classify its payload as `@category`, `@example`
or description text; empty payloads are dropped. -/
def stepBlock (st : BlockState) (l : Str) : BlockState :=
  let content := pyStrip ((pyStrip l).drop 3)
  if pyStartsWith content ("@category".data) then
    ⟨{ st.entry with category := pyStrip (removeAll content ("@category".data)) },
      st.descLines⟩
  else if pyStartsWith content ("@example".data) then
    ⟨{ st.entry with
        examples := st.entry.examples ++ [pyStrip (removeAll content ("@example".data))] },
      st.descLines⟩
  else if content.isEmpty then st
  else ⟨st.entry, st.descLines ++ [content]⟩

/-- The two-state line automaton of `parse_doc_blocks`: outside a block
(`none`) a line either starts a block or is skipped; inside a block
(`some st`) a `///` line is consumed into the block and any other line
closes the block and is then itself outside (it cannot start a block,
since a block start line also starts with `///`). -/
def parseLoop : List Str → Option BlockState → List DocEntry
  | [], none => []
  | [], some st => [finishBlock st]
  | l :: rest, none =>
      if isBlockStart l then parseLoop rest (some (startBlock l))
      else parseLoop rest none
  | l :: rest, some st =>
      if pyStartsWith (pyStrip l) ("///".data) then
        parseLoop rest (some (stepBlock st l))
      else
        finishBlock st :: parseLoop rest none

/-- `parse_doc_blocks(source_text)`: split on newlines and run the block
automaton. -/
def parseDocBlocks (sourceText : Str) : List DocEntry :=
  parseLoop (splitChar '\n' sourceText) none

example :
    parseDocBlocks ("/// @builtin noop\n/// does nothing\nint x;".data) =
      [{ kind := "builtin".data, signature := "noop".data, name := "noop".data,
         category := [], description := "does nothing".data, examples := [] }] := by
  decide

-- ── Source scanning (`scan_source_files`) ───────────────────────────────────

/-- A directory's regular files: `(filename, contents)` pairs.  A missing
source directory is `none`. -/
abbrev SourceDir := Option (List (String × Str))

/-- `scan_source_files` on an existing directory: keep the files matching
`*.c`, visit them in sorted filename order (Python's `sorted` is a stable
sort; `List.insertionSort` with a total order is the same function), and
concatenate the parsed entries. -/
def scanFiles (files : List (String × Str)) : List DocEntry :=
  (List.insertionSort (fun a b : String × Str => a.1 ≤ b.1)
      (files.filter (fun f => f.1.endsWith ".c"))).flatMap
    (fun f => parseDocBlocks f.2)

/-- `scan_source_files(src_dir)`: a missing directory yields zero entries
(after a warning on stderr) and the run continues. -/
def scanSourceFiles (d : SourceDir) : List DocEntry :=
  match d with
  | none => []
  | some files => scanFiles files

-- ── Taxonomy (`SECTION_GROUPS`, `CATEGORY_ORDER`) ───────────────────────────

/-- The fixed section → category taxonomy `SECTION_GROUPS`. -/
def SECTION_GROUPS : List (Str × List Str) :=
  [ ("Language".data,
      [ "Core".data, "Phase Transitions".data, "Type Constructors".data,
        "Type Conversion".data, "Error Handling".data ]),
    ("Standard Library".data,
      [ "Math".data, "String Formatting".data, "Regex".data, "JSON".data,
        "CSV".data, "URL".data, "Functional".data, "Metaprogramming".data ]),
    ("System".data,
      [ "File System".data, "Path".data, "Environment".data, "Process".data,
        "Date & Time".data, "Crypto".data, "Networking".data ]),
    ("Type Methods".data,
      [ "String Methods".data, "Array Methods".data, "Map Methods".data,
        "Channel Methods".data ]) ]

/-- `CATEGORY_ORDER`: the taxonomy's categories, flattened in order. -/
def CATEGORY_ORDER : List Str :=
  SECTION_GROUPS.flatMap (fun g => g.2)

-- ── Category grouping (`group_by_category`) ─────────────────────────────────

/-- Grouped entries: an insertion-ordered mapping category → entry list,
modelling the `OrderedDict`. -/
abbrev Groups := List (Str × List DocEntry)

/-- Key membership (`cat in groups`). -/
def keyMem (groups : Groups) (c : Str) : Bool :=
  groups.any (fun kv => kv.1 = c)

/-- Value lookup (`groups[cat]`; keys are unique, first match). -/
def findVal (groups : Groups) (c : Str) : Option (List DocEntry) :=
  match groups with
  | [] => none
  | (k, v) :: t => if k = c then some v else findVal t c

/-- `groups.setdefault(cat, []).append(entry)` on the ordered mapping:
append to the existing key's list, or create the key at the end. -/
def addEntry (g : Groups) (cat : Str) (e : DocEntry) : Groups :=
  match g with
  | [] => [(cat, [e])]
  | (k, v) :: t =>
      if k = cat then (k, v ++ [e]) :: t else (k, v) :: addEntry t cat e

/-- The grouping key of an entry: its category, absent/empty normalized
to `"Core"`. -/
def normCat (e : DocEntry) : Str :=
  if e.category.isEmpty then "Core".data else e.category

/-- `group_by_category(entries)`: pre-create every taxonomy category in
order, place each entry under `normCat`, then drop empty categories. -/
def groupByCategory (entries : List DocEntry) : Groups :=
  let start : Groups := CATEGORY_ORDER.map (fun c => (c, []))
  let placed := entries.foldl (fun g e => addEntry g (normCat e) e) start
  placed.filter (fun kv => !kv.2.isEmpty)

-- ── HTML escaping (`escape` / `html.escape(_, quote=True)`) ─────────────────

/-- `html.escape` on one character. -/
def escChar (c : Char) : Str :=
  if c = '&' then ("&amp;").data
  else if c = '<' then ("&lt;").data
  else if c = '>' then ("&gt;").data
  else if c = '\x22' then ("&quot;").data
  else if c = '\x27' then ("&#x27;").data
  else [c]

/-- `escape(text)` = `html.escape(text, quote=True)`. -/
def escape (s : Str) : Str :=
  s.flatMap escChar

-- ── Signature tokenizer (`format_signature_html`) ───────────────────────────

/-- Character class `[\w:.]` of the signature regex (ASCII `\w`). -/
def isWordChar (c : Char) : Bool :=
  c.isAlphanum || c = '_' || c = ':' || c = '.'

/-- The tail `\s*(->\s*(.+))?$` of the signature regex, matched against
the text after a candidate closing `)`.  `none` = no match at this `)`;
`some none` = match with no arrow clause (the tail is all whitespace);
`some (some r)` = match with return-type capture `r`.  When the text
after `->` is nonempty but all whitespace, backtracking of the greedy
`\s*` leaves the last whitespace character to `(.+)`. -/
def tailMatch (t : Str) : Option (Option Str) :=
  match t.dropWhile pyIsSpace with
  | [] => some none
  | '-' :: '>' :: v =>
      if v.isEmpty then none
      else
        match v.dropWhile pyIsSpace with
        | [] => some (some (v.drop (v.length - 1)))
        | w => some (some w)
  | _ => none

/-- The lazy `(.*?)\)` of the signature regex: scan for the first `)`
whose tail matches; a `)` with a failing tail is absorbed into the
parameter text. -/
def findParams (pending acc : Str) : Option (Str × Option Str) :=
  match pending with
  | [] => none
  | c :: rest =>
      if c = ')' then
        match tailMatch rest with
        | some r => some (acc.reverse, r)
        | none => findParams rest (c :: acc)
      else findParams rest (c :: acc)

/-- Captures of a successful signature match: groups 1, 2 and 4 of
`^([\w:.]+)\s*\((.*?)\)\s*(->\s*(.+))?$`. -/
structure SigParts where
  name : Str
  params : Str
  ret : Option Str
deriving DecidableEq, Repr

/-- `re.match(r'^([\w:.]+)\s*\((.*?)\)\s*(->\s*(.+))?$', sig, re.DOTALL)`.
The greedy `([\w:.]+)` and `\s*` never need backtracking here: the name
class, whitespace and `(` are pairwise disjoint, so shortening the name
or the whitespace run can only move `\(` onto a non-`(` character. -/
def matchSig (s : Str) : Option SigParts :=
  let name := s.takeWhile isWordChar
  let afterName := s.dropWhile isWordChar
  let afterWs := afterName.dropWhile pyIsSpace
  if name.isEmpty then none
  else
    match afterWs with
    | '(' :: rest => (findParams rest []).map (fun pr => ⟨name, pr.1, pr.2⟩)
    | _ => none

example : matchSig ("f(x: T) -> R".data) =
    some ⟨"f".data, "x: T".data, some ("R".data)⟩ := by decide
example : matchSig ("f(g(x), y)".data) =
    some ⟨"f".data, "g(x), y".data, none⟩ := by decide
example : matchSig ("hello world".data) = none := by decide
example : matchSig ("f(x) -> (A) -> B".data) =
    some ⟨"f".data, "x".data, some ("(A) -> B".data)⟩ := by decide
example : matchSig ("f(x) ->".data) = none := by decide

/-- The parameter-separator span `'<span class="op">, </span>'`. -/
def paramSep : Str := ("<span class=\"op\">, </span>").data

/-- Render one parameter: split on the first `:` into name and type, or
render the whole parameter as plain text if there is no `:`. -/
def formatParam (param : Str) : Str :=
  match param.findIdx? (· = ':') with
  | some i =>
      ("<span class=\"text\">").data ++ escape (pyStrip (param.take i)) ++
        ("</span><span class=\"op\">:</span> <span class=\"typ\">").data ++
        escape (pyStrip (param.drop (i + 1))) ++ ("</span>").data
  | none => ("<span class=\"text\">").data ++ escape param ++ ("</span>").data

/-- `format_signature_html(sig)`: tokenize via `matchSig`; on mismatch,
fall back to a single verbatim `fn` span wrapping the (escaped) input. -/
def formatSignatureHtml (sig : Str) : Str :=
  match matchSig sig with
  | none => ("<span class=\"fn\">").data ++ escape sig ++ ("</span>").data
  | some m =>
      let retType := m.ret.getD []
      let paramsPart :=
        if (pyStrip m.params).isEmpty then []
        else
          List.intercalate paramSep
            (((splitChar ',' m.params).map pyStrip).map formatParam)
      let retPart :=
        if (pyStrip retType).isEmpty then []
        else
          (" <span class=\"op\">-&gt;</span> <span class=\"typ\">").data ++
            escape (pyStrip retType) ++ ("</span>").data
      ("<span class=\"fn\">").data ++ escape m.name ++
        ("</span><span class=\"text\">(</span>").data ++ paramsPart ++
        ("<span class=\"text\">)</span>").data ++ retPart

-- ── Example rendering (`format_example_html`) ───────────────────────────────

/-- `format_example_html(example)`: split at the first `//` and wrap the
comment part in a `cmt` span; both parts are escaped. -/
def formatExampleHtml (ex : Str) : Str :=
  match findSub ("//".data) ex with
  | some i =>
      escape (ex.take i) ++ ("<span class=\"cmt\">").data ++
        escape (ex.drop i) ++ ("</span>").data
  | none => escape ex

-- ── Anchor generation (`make_anchor`) ───────────────────────────────────────

/-- The regex class `[a-zA-Z0-9_-]` kept by `re.sub` in `make_anchor`
(codes 65-90 `A-Z`, 97-122 `a-z`, 48-57 `0-9`, 95 `_`, 45 `-`). -/
def isAnchorKeep (c : Char) : Bool :=
  (65 ≤ c.toNat && c.toNat ≤ 90) || (97 ≤ c.toNat && c.toNat ≤ 122) ||
    (48 ≤ c.toNat && c.toNat ≤ 57) || c.toNat = 95 || c.toNat = 45

/-- `re.sub(r'[^a-zA-Z0-9_-]', '-', _)` on one character. -/
def anchorSub (c : Char) : Char :=
  if isAnchorKeep c then c else '-'

/-- `make_anchor(name)`: substitute, lowercase, then strip `-` from both
ends. -/
def makeAnchor (name : Str) : Str :=
  let subbed := (name.map anchorSub).map asciiLower
  dropWhileRight (· = '-') (subbed.dropWhile (· = '-'))

example : makeAnchor ("Date & Time".data) = ("date---time").data := by decide
example : makeAnchor ("--Ab_9--".data) = ("ab_9").data := by decide
example : makeAnchor ("fn-Foo.bar".data) = ("fn-foo-bar").data := by decide
example : makeAnchor ([]) = [] := by decide
example : escape ("&<>\"\x27x".data) = ("&amp;&lt;&gt;&quot;&#x27;x").data := by
  decide

-- ── Site renderer (`generate_html`) ─────────────────────────────────────────

/-- Static template before the sidebar interpolation point. -/
def htmlTpl0 : Str :=
  ("<!DOCTYPE html>\n<html lang=\"en\">\n<head>\n  <meta charset=\"utf-8\">\n  <meta name=\"viewport\" content=\"width=device-width, initial-scale=1\">\n  <!-- Google tag (gtag.js) -->\n  <script async src=\"https://www.googletagmanager.com/gtag/js?id=G-1YKVFGCL3K\"></script>\n  <script>\n    window.dataLayer = window.dataLayer || [];\n    function gtag()\x7bdataLayer.push(arguments);\x7d\n    gtag(\x27js\x27, new Date());\n    gtag(\x27config\x27, \x27G-1YKVFGCL3K\x27);\n  </script>\n  <title>Documentation — Lattice</title>\n  <meta name=\"description\" content=\"API documentation for the Lattice programming language. Browse builtins, type methods, and standard library functions.\">\n  <link rel=\"preconnect\" href=\"https://fonts.googleapis.com\">\n  <link rel=\"preconnect\" href=\"https://fonts.gstatic.com\" crossorigin>\n  <link href=\"https://fonts.googleapis.com/css2?family=Inter:wght@400;500;600;700&display=swap\" rel=\"stylesheet\">\n  <style>\n    /* ── Reset & Base ── */\n    *, *::before, *::after \x7b box-sizing: border-box; margin: 0; padding: 0; \x7d\n\n    :root \x7b\n      --bg: #08080d;\n      --bg-card: #0e0e18;\n      --border: #1a1a2e;\n      --text: #c8c8d4;\n      --text-dim: #6a6a80;\n      --heading: #e8e8f0;\n      --accent: #4fc3f7;\n      --accent-dim: #2a7ea8;\n      --keyword: #c792ea;\n      --string: #c3e88d;\n      --comment: #546e7a;\n      --type: #ffcb6b;\n      --number: #f78c6c;\n      --fn: #82aaff;\n      --mono: \x27SF Mono\x27, \x27Cascadia Code\x27, \x27JetBrains Mono\x27, \x27Fira Code\x27, Consolas, monospace;\n      --sans: \x27Inter\x27, -apple-system, BlinkMacSystemFont, \x27Segoe UI\x27, system-ui, sans-serif;\n    \x7d\n\n    html \x7b scroll-behavior: smooth; height: 100%; \x7d\n\n    body \x7b\n      font-family: var(--sans);\n      background: var(--bg);\n      color: var(--text);\n      line-height: 1.7;\n      height: 100%;\n      overflow: hidden;\n      display: flex;\n      flex-direction: column;\n    \x7d\n\n    /* ── Lattice background pattern ── */\n    body::before \x7b\n      content: \x27\x27;\n      position: fixed;\n      inset: 0;\n      background:\n        linear-gradient(rgba(79,195,247,0.03) 1px, transparent 1px),\n        linear-gradient(90deg, rgba(79,195,247,0.03) 1px, transparent 1px);\n      background-size: 60px 60px;\n      pointer-events: none;\n      z-index: 0;\n    \x7d\n\n    /* ── Header ── */\n    .doc-header \x7b\n      display: flex;\n      align-items: center;\n      justify-content: space-between;\n      padding: 12px 24px;\n      border-bottom: 1px solid var(--border);\n      background: var(--bg-card);\n      position: relative;\n      z-index: 10;\n      flex-shrink: 0;\n    \x7d\n\n    .doc-header-left \x7b\n      display: flex;\n      align-items: center;\n      gap: 16px;\n    \x7d\n\n    .doc-logo \x7b\n      font-family: var(--mono);\n      font-size: 1rem;\n      font-weight: 700;\n      color: var(--heading);\n      text-decoration: none;\n      background: linear-gradient(135deg, var(--heading), var(--accent));\n      -webkit-background-clip: text;\n      -webkit-text-fill-color: transparent;\n      background-clip: text;\n    \x7d\n\n    .doc-sep \x7b\n      color: var(--border);\n      font-size: 1.2rem;\n      user-select: none;\n    \x7d\n\n    .doc-title \x7b\n      font-family: var(--mono);\n      font-size: 0.85rem;\n      color: var(--text-dim);\n    \x7d\n\n    .doc-header-right \x7b\n      display: flex;\n      align-items: center;\n      gap: 12px;\n    \x7d\n\n    .doc-btn \x7b\n      font-family: var(--mono);\n      font-size: 0.75rem;\n      padding: 6px 14px;\n      border-radius: 6px;\n      border: 1px solid var(--border);\n      background: transparent;\n      color: var(--text-dim);\n      cursor: pointer;\n      text-decoration: none;\n      transition: all 0.2s;\n    \x7d\n    .doc-btn:hover \x7b\n      border-color: var(--accent-dim);\n      color: var(--accent);\n    \x7d\n\n    /* ── Layout ── */\n    .doc-layout \x7b\n      display: flex;\n      flex: 1;\n      overflow: hidden;\n      position: relative;\n      z-index: 1;\n    \x7d\n\n    /* ── Sidebar ── */\n    .doc-sidebar \x7b\n      width: 240px;\n      flex-shrink: 0;\n      border-right: 1px solid var(--border);\n      background: var(--bg-card);\n      overflow-y: auto;\n      padding: 20px 0;\n    \x7d\n\n    .doc-sidebar::-webkit-scrollbar \x7b width: 6px; \x7d\n    .doc-sidebar::-webkit-scrollbar-track \x7b background: transparent; \x7d\n    .doc-sidebar::-webkit-scrollbar-thumb \x7b background: var(--border); border-radius: 3px; \x7d\n    .doc-sidebar::-webkit-scrollbar-thumb:hover \x7b background: var(--text-dim); \x7d\n\n    .sidebar-section \x7b\n      margin-bottom: 20px;\n    \x7d\n\n    .sidebar-heading \x7b\n      font-family: var(--mono);\n      font-size: 0.7rem;\n      text-transform: uppercase;\n      letter-spacing: 0.12em;\n      color: var(--text-dim);\n      padding: 0 20px;\n      margin-bottom: 6px;\n    \x7d\n\n    .sidebar-link \x7b\n      display: flex;\n      align-items: center;\n      justify-content: space-between;\n      padding: 5px 20px;\n      font-size: 0.82rem;\n      color: var(--text);\n      text-decoration: none;\n      transition: all 0.15s;\n    \x7d\n    .sidebar-link:hover \x7b\n      color: var(--accent);\n      background: rgba(79,195,247,0.04);\n    \x7d\n    .sidebar-link.active \x7b\n      color: var(--accent);\n      background: rgba(79,195,247,0.08);\n      border-right: 2px solid var(--accent);\n    \x7d\n\n    .sidebar-count \x7b\n      font-family: var(--mono);\n      font-size: 0.65rem;\n      color: var(--text-dim);\n      background: rgba(255,255,255,0.04);\n      padding: 1px 6px;\n      border-radius: 8px;\n    \x7d\n\n    .sidebar-empty \x7b\n      padding: 20px;\n      font-size: 0.82rem;\n      color: var(--text-dim);\n      line-height: 1.5;\n    \x7d\n\n    /* ── Mobile sidebar toggle ── */\n    .sidebar-toggle \x7b\n      display: none;\n      position: fixed;\n      bottom: 20px;\n      right: 20px;\n      z-index: 20;\n      width: 44px;\n      height: 44px;\n      border-radius: 50%;\n      border: 1px solid var(--border);\n      background: var(--bg-card);\n      color: var(--accent);\n      font-size: 1.2rem;\n      cursor: pointer;\n      align-items: center;\n      justify-content: center;\n      box-shadow: 0 4px 12px rgba(0,0,0,0.4);\n    \x7d\n\n    /* ── Content ── */\n    .doc-content \x7b\n      flex: 1;\n      overflow-y: auto;\n      padding: 24px 32px 60px;\n    \x7d\n\n    .doc-content::-webkit-scrollbar \x7b width: 8px; \x7d\n    .doc-content::-webkit-scrollbar-track \x7b background: transparent; \x7d\n    .doc-content::-webkit-scrollbar-thumb \x7b background: var(--border); border-radius: 4px; \x7d\n    .doc-content::-webkit-scrollbar-thumb:hover \x7b background: var(--text-dim); \x7d\n\n    /* ── Search ── */\n    .doc-search-wrap \x7b\n      position: sticky;\n      top: 0;\n      background: var(--bg);\n      padding: 0 0 16px;\n      z-index: 5;\n      margin-bottom: 8px;\n    \x7d\n\n    #doc-search \x7b\n      width: 100%;\n      max-width: 480px;\n      font-family: var(--mono);\n      font-size: 0.85rem;\n      padding: 10px 16px;\n      border-radius: 8px;\n      border: 1px solid var(--border);\n      background: var(--bg-card);\n      color: var(--text);\n      outline: none;\n      transition: border-color 0.2s;\n    \x7d\n    #doc-search:focus \x7b\n      border-color: var(--accent-dim);\n    \x7d\n    #doc-search::placeholder \x7b\n      color: var(--text-dim);\n      opacity: 0.6;\n    \x7d\n\n    .doc-stats \x7b\n      font-family: var(--mono);\n      font-size: 0.72rem;\n      color: var(--text-dim);\n      margin-top: 8px;\n    \x7d\n\n    /* ── Section label & title ── */\n    .section-label \x7b\n      font-family: var(--mono);\n      font-size: 0.75rem;\n      text-transform: uppercase;\n      letter-spacing: 0.15em;\n      color: var(--accent);\n      margin-bottom: 6px;\n    \x7d\n\n    .section-title \x7b\n      font-size: 1.5rem;\n      font-weight: 600;\n      color: var(--heading);\n      margin-bottom: 16px;\n      padding-top: 8px;\n    \x7d\n\n    /* ── Doc category ── */\n    .doc-category \x7b\n      margin-bottom: 40px;\n    \x7d\n\n    /* ── Doc entry ── */\n    .doc-entry \x7b\n      background: var(--bg-card);\n      border: 1px solid var(--border);\n      border-radius: 8px;\n      padding: 20px;\n      margin-bottom: 12px;\n      transition: border-color 0.2s;\n    \x7d\n    .doc-entry:hover \x7b\n      border-color: var(--accent-dim);\n    \x7d\n    .doc-entry.hidden \x7b\n      display: none;\n    \x7d\n\n    .doc-sig \x7b\n      font-family: var(--mono);\n      font-size: 0.9rem;\n      line-height: 1.5;\n      margin-bottom: 8px;\n    \x7d\n    .doc-sig .fn \x7b\n      color: var(--fn);\n      font-weight: 600;\n    \x7d\n    .doc-sig .typ \x7b\n      color: var(--type);\n    \x7d\n    .doc-sig .op \x7b\n      color: var(--text-dim);\n    \x7d\n    .doc-sig .text \x7b\n      color: var(--text);\n    \x7d\n\n    .doc-desc \x7b\n      font-size: 0.875rem;\n      color: var(--text-dim);\n      line-height: 1.6;\n      margin-bottom: 8px;\n    \x7d\n\n    .doc-examples \x7b\n      margin-top: 10px;\n    \x7d\n\n    .doc-examples pre \x7b\n      background: rgba(0,0,0,0.2);\n      border: 1px solid var(--border);\n      border-radius: 6px;\n      padding: 10px 14px;\n      margin-bottom: 6px;\n      overflow-x: auto;\n    \x7d\n\n    .doc-examples code \x7b\n      font-family: var(--mono);\n      font-size: 0.82rem;\n      color: var(--text);\n      line-height: 1.6;\n    \x7d\n\n    .doc-examples .cmt \x7b\n      color: var(--comment);\n      font-style: italic;\n    \x7d\n\n    /* Syntax highlighting classes (match site) */\n    .kw \x7b color: var(--keyword); \x7d\n    .str \x7b color: var(--string); \x7d\n    .cmt \x7b color: var(--comment); font-style: italic; \x7d\n    .typ \x7b color: var(--type); \x7d\n    .num \x7b color: var(--number); \x7d\n    .fn \x7b color: var(--fn); \x7d\n    .op \x7b color: var(--text-dim); \x7d\n\n    /* ── Empty state ── */\n    .doc-empty \x7b\n      text-align: center;\n      padding: 80px 24px;\n    \x7d\n\n    .doc-empty-icon \x7b\n      font-size: 3rem;\n      color: var(--accent-dim);\n      margin-bottom: 16px;\n    \x7d\n\n    .doc-empty h2 \x7b\n      font-size: 1.5rem;\n      font-weight: 600;\n      color: var(--heading);\n      margin-bottom: 12px;\n    \x7d\n\n    .doc-empty p \x7b\n      color: var(--text-dim);\n      margin-bottom: 24px;\n      max-width: 520px;\n      margin-left: auto;\n      margin-right: auto;\n    \x7d\n\n    .doc-empty code \x7b\n      font-family: var(--mono);\n      font-size: 0.82rem;\n      background: var(--bg-card);\n      padding: 2px 6px;\n      border-radius: 4px;\n      border: 1px solid var(--border);\n    \x7d\n\n    .doc-empty-example \x7b\n      max-width: 560px;\n      margin: 0 auto;\n      text-align: left;\n    \x7d\n\n    .doc-empty-example pre \x7b\n      background: var(--bg-card);\n      border: 1px solid var(--border);\n      border-radius: 8px;\n      padding: 16px 20px;\n      overflow-x: auto;\n      font-family: var(--mono);\n      font-size: 0.82rem;\n      line-height: 1.7;\n    \x7d\n\n    .doc-empty-example code \x7b\n      font-family: var(--mono);\n      font-size: 0.82rem;\n      background: none;\n      border: none;\n      padding: 0;\n    \x7d\n\n    /* ── Footer ── */\n    .doc-footer \x7b\n      padding: 24px 32px;\n      border-top: 1px solid var(--border);\n      text-align: center;\n      flex-shrink: 0;\n    \x7d\n\n    .doc-footer-text \x7b\n      font-size: 0.75rem;\n      color: var(--text-dim);\n    \x7d\n\n    /* ── Responsive ── */\n    @media (max-width: 768px) \x7b\n      .doc-sidebar \x7b\n        position: fixed;\n        left: -260px;\n        top: 0;\n        bottom: 0;\n        z-index: 15;\n        transition: left 0.25s ease;\n        box-shadow: none;\n      \x7d\n      .doc-sidebar.open \x7b\n        left: 0;\n        box-shadow: 4px 0 20px rgba(0,0,0,0.5);\n      \x7d\n\n      .sidebar-toggle \x7b\n        display: flex;\n      \x7d\n\n      .sidebar-overlay \x7b\n        display: none;\n        position: fixed;\n        inset: 0;\n        background: rgba(0,0,0,0.5);\n        z-index: 14;\n      \x7d\n      .sidebar-overlay.open \x7b\n        display: block;\n      \x7d\n\n      .doc-content \x7b\n        padding: 20px 16px 60px;\n      \x7d\n\n      .doc-header \x7b\n        padding: 10px 16px;\n      \x7d\n\n      .doc-title \x7b display: none; \x7d\n      .doc-sep \x7b display: none; \x7d\n    \x7d\n\n    @media (max-width: 480px) \x7b\n      .doc-entry \x7b\n        padding: 14px;\n      \x7d\n      .doc-sig \x7b\n        font-size: 0.8rem;\n      \x7d\n    \x7d\n  </style>\n</head>\n<body>\n\n<!-- Header -->\n<div class=\"doc-header\">\n  <div class=\"doc-header-left\">\n    <a href=\"/\" class=\"doc-logo\">Lattice</a>\n    <span class=\"doc-sep\">/</span>\n    <span class=\"doc-title\">Documentation</span>\n  </div>\n  <div class=\"doc-header-right\">\n    <a href=\"playground.html\" class=\"doc-btn\">Playground</a>\n    <a href=\"/\" class=\"doc-btn\">Home</a>\n    <a href=\"https://github.com/ajokela/lattice\" class=\"doc-btn\">GitHub</a>\n  </div>\n</div>\n\n<!-- Layout -->\n<div class=\"doc-layout\">\n\n  <!-- Sidebar -->\n  <nav class=\"doc-sidebar\" id=\"doc-sidebar\">\n").data

/-- Static template between the sidebar and the entry count. -/
def htmlTpl1 : Str :=
  ("  </nav>\n\n  <!-- Overlay for mobile sidebar -->\n  <div class=\"sidebar-overlay\" id=\"sidebar-overlay\"></div>\n\n  <!-- Content -->\n  <main class=\"doc-content\" id=\"doc-content\">\n    <div class=\"doc-search-wrap\">\n      <input type=\"text\" id=\"doc-search\" placeholder=\"Search functions...\" autocomplete=\"off\" spellcheck=\"false\">\n      <div class=\"doc-stats\">").data

/-- Static template between the entry count and the category count. -/
def htmlTpl2 : Str :=
  (" functions across ").data

/-- Static template between the category count and the content. -/
def htmlTpl3 : Str :=
  (" categories</div>\n    </div>\n\n").data

/-- Static template after the content interpolation point. -/
def htmlTpl4 : Str :=
  ("  </main>\n</div>\n\n<!-- Mobile sidebar toggle -->\n<button class=\"sidebar-toggle\" id=\"sidebar-toggle\" aria-label=\"Toggle navigation\">&#9776;</button>\n\n<script>\n(function() \x7b\n  \x27use strict\x27;\n\n  // ── Search / Filter ──\n  var searchInput = document.getElementById(\x27doc-search\x27);\n  var entries = document.querySelectorAll(\x27.doc-entry\x27);\n  var categories = document.querySelectorAll(\x27.doc-category\x27);\n\n  searchInput.addEventListener(\x27input\x27, function() \x7b\n    var q = this.value.toLowerCase().trim();\n\n    for (var i = 0; i < entries.length; i++) \x7b\n      var entry = entries[i];\n      var name = entry.getAttribute(\x27data-name\x27) || \x27\x27;\n      var desc = entry.getAttribute(\x27data-desc\x27) || \x27\x27;\n\n      if (!q || name.indexOf(q) !== -1 || desc.indexOf(q) !== -1) \x7b\n        entry.classList.remove(\x27hidden\x27);\n      \x7d else \x7b\n        entry.classList.add(\x27hidden\x27);\n      \x7d\n    \x7d\n\n    // Hide categories with all entries hidden\n    for (var j = 0; j < categories.length; j++) \x7b\n      var cat = categories[j];\n      var visibleEntries = cat.querySelectorAll(\x27.doc-entry:not(.hidden)\x27);\n      cat.style.display = visibleEntries.length === 0 ? \x27none\x27 : \x27\x27;\n    \x7d\n  \x7d);\n\n  // ── Sidebar active state on scroll ──\n  var contentEl = document.getElementById(\x27doc-content\x27);\n  var sidebarLinks = document.querySelectorAll(\x27.sidebar-link\x27);\n\n  function updateActiveLink() \x7b\n    var scrollTop = contentEl.scrollTop;\n    var current = \x27\x27;\n\n    for (var i = 0; i < categories.length; i++) \x7b\n      var cat = categories[i];\n      if (cat.offsetTop - 120 <= scrollTop) \x7b\n        current = cat.id;\n      \x7d\n    \x7d\n\n    for (var j = 0; j < sidebarLinks.length; j++) \x7b\n      var link = sidebarLinks[j];\n      if (link.getAttribute(\x27data-cat\x27) === current) \x7b\n        link.classList.add(\x27active\x27);\n      \x7d else \x7b\n        link.classList.remove(\x27active\x27);\n      \x7d\n    \x7d\n  \x7d\n\n  contentEl.addEventListener(\x27scroll\x27, updateActiveLink);\n  updateActiveLink();\n\n  // ── Sidebar link click: scroll content ──\n  for (var k = 0; k < sidebarLinks.length; k++) \x7b\n    sidebarLinks[k].addEventListener(\x27click\x27, function(e) \x7b\n      e.preventDefault();\n      var targetId = this.getAttribute(\x27data-cat\x27);\n      var target = document.getElementById(targetId);\n      if (target) \x7b\n        contentEl.scrollTo(\x7b top: target.offsetTop - 16, behavior: \x27smooth\x27 \x7d);\n      \x7d\n      // Close mobile sidebar\n      document.getElementById(\x27doc-sidebar\x27).classList.remove(\x27open\x27);\n      document.getElementById(\x27sidebar-overlay\x27).classList.remove(\x27open\x27);\n    \x7d);\n  \x7d\n\n  // ── Mobile sidebar toggle ──\n  var toggleBtn = document.getElementById(\x27sidebar-toggle\x27);\n  var sidebar = document.getElementById(\x27doc-sidebar\x27);\n  var overlay = document.getElementById(\x27sidebar-overlay\x27);\n\n  toggleBtn.addEventListener(\x27click\x27, function() \x7b\n    sidebar.classList.toggle(\x27open\x27);\n    overlay.classList.toggle(\x27open\x27);\n  \x7d);\n\n  overlay.addEventListener(\x27click\x27, function() \x7b\n    sidebar.classList.remove(\x27open\x27);\n    overlay.classList.remove(\x27open\x27);\n  \x7d);\n\n  // ── Keyboard shortcut: / to focus search ──\n  document.addEventListener(\x27keydown\x27, function(e) \x7b\n    if (e.key === \x27/\x27 && document.activeElement !== searchInput) \x7b\n      e.preventDefault();\n      searchInput.focus();\n    \x7d\n    if (e.key === \x27Escape\x27 && document.activeElement === searchInput) \x7b\n      searchInput.blur();\n    \x7d\n  \x7d);\n\x7d)();\n</script>\n\n</body>\n</html>\n").data

/-- The fixed empty-state content block. -/
def emptyContentHtml : Str :=
  ("    <div class=\"doc-empty\">\n      <div class=\"doc-empty-icon\">&#x25C7;</div>\n      <h2>No Documentation Yet</h2>\n      <p>Add <code>/// @builtin</code> or <code>/// @method</code> doc comments to C source files to generate documentation.</p>\n      <div class=\"doc-empty-example\">\n        <pre><code><span class=\"cmt\">/// @builtin print(value: Any) -> Unit</span>\n<span class=\"cmt\">/// @category Core</span>\n<span class=\"cmt\">/// Prints a value to stdout followed by a newline.</span>\n<span class=\"cmt\">/// @example print(\"hello\")  // hello</span>\nif (strcmp(fn_name, \"print\") == 0) \x7b</code></pre>\n      </div>\n    </div>\n").data

/-- The fixed empty-state sidebar message. -/
def emptySidebarHtml : Str :=
  ("      <div class=\"sidebar-empty\">Add doc comments to source files to see categories here.</div>\n").data

/-- One sidebar link (`generate_html`, sidebar loop body). -/
def sidebarLink (groups : Groups) (cat : Str) : Str :=
  let anchor := makeAnchor cat
  let count := ((findVal groups cat).getD []).length
  ("        <a href=\"#").data ++ anchor ++
    ("\" class=\"sidebar-link\" data-cat=\"").data ++ anchor ++ ("\">").data ++
    escape cat ++ ("<span class=\"sidebar-count\">").data ++
    (toString count).data ++ ("</span></a>\n").data

/-- One sidebar section: skipped entirely when none of its categories is
present in the grouped input. -/
def sidebarSection (groups : Groups) (sec : Str × List Str) : Str :=
  let activeCats := sec.2.filter (fun c => keyMem groups c)
  if activeCats.isEmpty then []
  else
    ("      <div class=\"sidebar-section\">\n        <div class=\"sidebar-heading\">").data ++
      escape sec.1 ++ ("</div>\n").data ++
      activeCats.flatMap (sidebarLink groups) ++ ("      </div>\n").data

/-- The sidebar built by the first loop of `generate_html` (before the
empty-state override). -/
def sidebarHtmlRaw (groups : Groups) : Str :=
  SECTION_GROUPS.flatMap (sidebarSection groups)

/-- One entry card (`generate_html`, content loop innermost body). -/
def entryHtml (e : DocEntry) : Str :=
  let entryAnchor := makeAnchor (("fn-").data ++ e.name)
  let sigHtml := formatSignatureHtml e.signature
  ("      <div class=\"doc-entry\" id=\"").data ++ entryAnchor ++
    ("\" data-name=\"").data ++ escape (pyLower e.name) ++
    ("\" data-desc=\"").data ++ escape (pyLower e.description) ++ ("\">\n").data ++
    ("        <div class=\"doc-sig\">").data ++ sigHtml ++ ("</div>\n").data ++
    (if e.description.isEmpty then []
     else ("        <p class=\"doc-desc\">").data ++ escape e.description ++
       ("</p>\n").data) ++
    (if e.examples.isEmpty then []
     else ("        <div class=\"doc-examples\">\n").data ++
       e.examples.flatMap (fun ex =>
         ("          <pre><code>").data ++ formatExampleHtml ex ++
           ("</code></pre>\n").data) ++
       ("        </div>\n").data) ++
    ("      </div>\n").data

/-- One category block of the content pane. -/
def categoryHtml (groups : Groups) (secName cat : Str) : Str :=
  let anchor := makeAnchor cat
  let entries := (findVal groups cat).getD []
  ("    <div class=\"doc-category\" id=\"").data ++ anchor ++ ("\">\n").data ++
    ("      <div class=\"section-label\">").data ++ escape secName ++
    ("</div>\n").data ++
    ("      <h2 class=\"section-title\">").data ++ escape cat ++ ("</h2>\n").data ++
    entries.flatMap entryHtml ++ ("    </div>\n").data

/-- One section of the content pane: only taxonomy categories present in
the grouped input are visited. -/
def contentSection (groups : Groups) (sec : Str × List Str) : Str :=
  (sec.2.filter (fun c => keyMem groups c)).flatMap (categoryHtml groups sec.1)

/-- The content pane built by the second loop of `generate_html` (before
the empty-state override). -/
def contentHtmlRaw (groups : Groups) : Str :=
  SECTION_GROUPS.flatMap (contentSection groups)

/-- `content_html` after the `if not groups` empty-state override. -/
def contentHtmlFinal (groups : Groups) : Str :=
  if groups.isEmpty then emptyContentHtml else contentHtmlRaw groups

/-- `sidebar_html` after the `if not groups` empty-state override. -/
def sidebarHtmlFinal (groups : Groups) : Str :=
  if groups.isEmpty then emptySidebarHtml else sidebarHtmlRaw groups

/-- `total_entries = sum(len(v) for v in groups.values())`. -/
def totalEntries (groups : Groups) : Nat :=
  (groups.map (fun kv => kv.2.length)).sum

/-- `total_categories = len(groups)`. -/
def totalCategories (groups : Groups) : Nat :=
  groups.length

/-- The complete document written by `generate_html`: the static template
with the sidebar, the footer statistics and the content interpolated. -/
def fullHtml (groups : Groups) : Str :=
  htmlTpl0 ++ sidebarHtmlFinal groups ++ htmlTpl1 ++
    (toString (totalEntries groups)).data ++ htmlTpl2 ++
    (toString (totalCategories groups)).data ++ htmlTpl3 ++
    contentHtmlFinal groups ++ htmlTpl4

/-- The whole pipeline of `main` on a given source directory: scan, group,
render.  The document content is a pure function of the directory
contents; nothing run-dependent (no timestamp) is embedded. -/
def pipelineHtml (d : SourceDir) : Str :=
  fullHtml (groupByCategory (scanSourceFiles d))

/-- The categories actually visited by the sidebar loop and by the
content loop of `generate_html`: for each taxonomy section, its declared
categories that are present in the grouped input. -/
def emittedCats (groups : Groups) : List Str :=
  SECTION_GROUPS.flatMap (fun sec => sec.2.filter (fun c => keyMem groups c))

-- ── Claim theorems ──────────────────────────────────────────────────────────

/-- C1: for every grouped-entry mapping passed to the renderer, the footer
statistics report the sum of the lengths of all entry lists and the number
of keys of the mapping; every category visited by the sidebar or content
walk is declared in the taxonomy (and present in the mapping), so a key
outside the taxonomy is counted in the footer but never emitted. -/
theorem claim_C1_footer_counts (groups : Groups) :
    totalEntries groups = (groups.map (fun kv => kv.2.length)).sum ∧
    totalCategories groups = groups.length ∧
    ∀ c, c ∈ emittedCats groups → c ∈ CATEGORY_ORDER ∧ keyMem groups c = true := by
  refine ⟨rfl, rfl, fun c hc => ?_⟩
  simp only [emittedCats, List.mem_flatMap, List.mem_filter] at hc
  obtain ⟨sec, hsec, hcat, hmem⟩ := hc
  exact ⟨List.mem_flatMap.mpr ⟨sec, hsec, hcat⟩, hmem⟩

/-- Witness for C1 at a mapping containing the undeclared category
`"Weird"`: the footer counts both categories and both entries, while only
`"Core"` is declared and emitted. -/
theorem claim_C1_footer_counts_witness :
    totalEntries [(("Core").data, [{}]), (("Weird").data, [{}])] = 2 ∧
    totalCategories [(("Core").data, [{}]), (("Weird").data, [{}])] = 2 ∧
    (("Core").data ∈ CATEGORY_ORDER ∧
      keyMem [(("Core").data, [{}]), (("Weird").data, [{}])] (("Core").data) = true) ∧
    (("Weird").data ∉ emittedCats [(("Core").data, [{}]), (("Weird").data, [{}])]) := by
  refine ⟨by decide, by decide, ?_, by decide⟩
  exact (claim_C1_footer_counts
    [(("Core").data, [{}]), (("Weird").data, [{}])]).2.2 (("Core").data) (by decide)

/-- C2: parsing the four-line block `/// @builtin f(x: T) -> R`,
`/// @category C`, `/// desc`, `/// @example f(1)  // ok` yields exactly
one entry with kind `builtin`, name `f`, category `C`, description `desc`
and examples `["f(1)  // ok"]`. -/
theorem claim_C2_block_parse :
    parseDocBlocks
        (("/// @builtin f(x: T) -> R\n/// @category C\n/// desc\n/// @example f(1)  // ok").data) =
      [{ kind := ("builtin").data, signature := ("f(x: T) -> R").data,
         name := ("f").data, category := ("C").data,
         description := ("desc").data, examples := [("f(1)  // ok").data] }] := by
  decide

/-- C4: the signature tokenizer is a total function (it is a Lean `def`,
so it terminates and raises nothing on every input), and whenever the
anchored structural pattern fails to match, `format_signature_html`
returns the single verbatim `fn` token wrapping the original input (the
input is carried whole, HTML-escaped for embedding, with no
name/params/return decomposition). -/
theorem claim_C4_verbatim_fallback (s : Str) (h : matchSig s = none) :
    formatSignatureHtml s =
      ("<span class=\"fn\">").data ++ escape s ++ ("</span>").data := by
  unfold formatSignatureHtml
  rw [h]

/-- Witness for C4 at the non-matching input `"hello world"`. -/
theorem claim_C4_verbatim_fallback_witness :
    matchSig (("hello world").data) = none ∧
    formatSignatureHtml (("hello world").data) =
      ("<span class=\"fn\">").data ++ escape (("hello world").data) ++
        ("</span>").data :=
  ⟨by decide, claim_C4_verbatim_fallback (("hello world").data) (by decide)⟩

/-- C6: the pipeline is deterministic — the rendered document is a pure
function of the directory contents (no timestamp or other run-dependent
field is embedded), so two runs over identical input produce
byte-identical output. -/
theorem claim_C6_deterministic (d₁ d₂ : SourceDir) (h : d₁ = d₂) :
    pipelineHtml d₁ = pipelineHtml d₂ := by
  rw [h]

/-- Witness for C6: two runs over the same one-file directory. -/
theorem claim_C6_deterministic_witness :
    pipelineHtml (some [("m.c", ("/// @builtin f()").data)]) =
      pipelineHtml (some [("m.c", ("/// @builtin f()").data)]) :=
  claim_C6_deterministic _ _ rfl

/-- C8: a missing source directory yields zero entries and the run
continues: the grouped input is empty and the renderer emits the fixed
empty-state placeholder and the empty-sidebar message instead of
navigation sections and entry cards. -/
theorem claim_C8_missing_dir_empty_state :
    scanSourceFiles none = [] ∧
    groupByCategory (scanSourceFiles none) = [] ∧
    sidebarHtmlFinal (groupByCategory (scanSourceFiles none)) = emptySidebarHtml ∧
    contentHtmlFinal (groupByCategory (scanSourceFiles none)) = emptyContentHtml := by
  refine ⟨rfl, by decide, ?_, ?_⟩ <;> rfl

/-- Filename order used by `sorted` in `scan_source_files`. -/
def fileLe (a b : String × Str) : Prop :=
  a.1 ≤ b.1

instance : DecidableRel fileLe := fun a b => inferInstanceAs (Decidable (a.1 ≤ b.1))

instance : IsTotal (String × Str) fileLe :=
  ⟨fun a b => le_total a.1 b.1⟩

instance : IsTrans (String × Str) fileLe :=
  ⟨fun _ _ _ h₁ h₂ => le_trans h₁ h₂⟩

/-- C10: the scanner considers exactly the files of the directory whose
names end in `.c` (the directory model is flat, mirroring the
non-recursive `glob("*.c")`), visits them in sorted filename order, and
concatenates their parsed entries in that order. -/
theorem claim_C10_scan_order (files : List (String × Str)) :
    ∃ cFiles,
      cFiles.Perm (files.filter (fun f => f.1.endsWith ".c")) ∧
      List.Sorted fileLe cFiles ∧
      scanSourceFiles (some files) = cFiles.flatMap (fun f => parseDocBlocks f.2) := by
  refine ⟨List.insertionSort fileLe (files.filter (fun f => f.1.endsWith ".c")),
    List.perm_insertionSort fileLe _, List.sorted_insertionSort fileLe _, rfl⟩

-- ── Grouping lemmas (for C5) ────────────────────────────────────────────────

/-- Looking a key up after `addEntry`: the added entry lands at the end of
its own category's list and no other key changes. -/
theorem findVal_addEntry (g : Groups) (cat : Str) (e : DocEntry) (c : Str) :
    findVal (addEntry g cat e) c =
      if c = cat then some (((findVal g c).getD []) ++ [e]) else findVal g c := by
  induction g with
  | nil =>
      by_cases h : c = cat
      · subst h; simp [addEntry, findVal]
      · simp [addEntry, findVal, h, Ne.symm h]
  | cons kv t ih =>
      obtain ⟨k, v⟩ := kv
      simp only [addEntry]
      by_cases hk : k = cat
      · rw [if_pos hk]; subst hk
        by_cases hc : c = k
        · subst hc; simp [findVal]
        · simp [findVal, Ne.symm hc, hc]
      · rw [if_neg hk]
        by_cases hc : c = k
        · subst hc
          simp [findVal, hk]
        · simp [findVal, Ne.symm hc, ih]

/-- Looking a key up after placing a list of entries: the key's list is
extended, in order, by exactly the entries whose normalized category is
that key; a key absent from `g` is present afterwards iff some entry
normalizes to it. -/
theorem findVal_foldl (es : List DocEntry) (g : Groups) (c : Str) :
    findVal (es.foldl (fun g e => addEntry g (normCat e) e) g) c =
      match findVal g c with
      | some v => some (v ++ es.filter (fun e => normCat e = c))
      | none =>
          if (es.filter (fun e => normCat e = c)).isEmpty then none
          else some (es.filter (fun e => normCat e = c)) := by
  induction es generalizing g with
  | nil => cases h : findVal g c <;> simp [h]
  | cons e es' ih =>
      simp only [List.foldl_cons, ih, findVal_addEntry]
      by_cases hce : normCat e = c
      · rw [if_pos hce.symm]
        cases h : findVal g c <;> simp [h, hce, List.filter_cons]
      · rw [if_neg (fun hh : c = normCat e => hce hh.symm)]
        cases h : findVal g c <;> simp [h, hce, List.filter_cons]

/-- Lookup in the pre-created taxonomy mapping. -/
theorem findVal_preCreate (l : List Str) (c : Str) :
    findVal (l.map (fun k => (k, []))) c = if c ∈ l then some [] else none := by
  induction l with
  | nil => simp [findVal]
  | cons a t ih =>
      by_cases h : a = c
      · subst h; simp [findVal]
      · have hca : ¬ c = a := fun hh => h hh.symm
        simp [findVal, h, ih, hca]

/-- `keyMem` is membership in the key list. -/
theorem keyMem_iff (g : Groups) (c : Str) :
    keyMem g c = true ↔ c ∈ g.map Prod.fst := by
  simp only [keyMem, List.any_eq_true, List.mem_map, decide_eq_true_eq]

/-- `keyMem` agrees with definedness of `findVal`. -/
theorem keyMem_eq_isSome (g : Groups) (c : Str) :
    keyMem g c = (findVal g c).isSome := by
  induction g with
  | nil => simp [keyMem, findVal]
  | cons kv t ih =>
      obtain ⟨k, v⟩ := kv
      by_cases h : k = c
      · subst h; simp [keyMem, findVal]
      · have h1 : keyMem ((k, v) :: t) c = keyMem t c := by simp [keyMem, h]
        have h2 : findVal ((k, v) :: t) c = findVal t c := by simp [findVal, h]
        rw [h1, h2, ih]

/-- `addEntry` either extends an existing key in place or appends the new
key at the end of the mapping. -/
theorem keys_addEntry (g : Groups) (cat : Str) (e : DocEntry) :
    (addEntry g cat e).map Prod.fst =
      if keyMem g cat then g.map Prod.fst else g.map Prod.fst ++ [cat] := by
  induction g with
  | nil => simp [addEntry, keyMem]
  | cons kv t ih =>
      obtain ⟨k, v⟩ := kv
      by_cases h : k = cat
      · subst h; simp [addEntry, keyMem]
      · have hkm : keyMem ((k, v) :: t) cat = keyMem t cat := by simp [keyMem, h]
        simp only [addEntry, if_neg h, List.map_cons, ih, hkm]
        cases hm : keyMem t cat <;> simp [hm]

/-- `addEntry` preserves uniqueness of keys. -/
theorem nodup_keys_addEntry (g : Groups) (cat : Str) (e : DocEntry)
    (h : (g.map Prod.fst).Nodup) : ((addEntry g cat e).map Prod.fst).Nodup := by
  rw [keys_addEntry]
  by_cases hm : keyMem g cat = true
  · simp [hm, h]
  · have hcat : cat ∉ g.map Prod.fst := fun hc => hm ((keyMem_iff g cat).mpr hc)
    simp [hm, List.nodup_append, h, hcat]

/-- Placing entries preserves uniqueness of keys. -/
theorem nodup_keys_foldl (es : List DocEntry) (g : Groups)
    (h : (g.map Prod.fst).Nodup) :
    ((es.foldl (fun g e => addEntry g (normCat e) e) g).map Prod.fst).Nodup := by
  induction es generalizing g with
  | nil => exact h
  | cons e es' ih => exact ih _ (nodup_keys_addEntry _ _ _ h)

/-- `findVal` is `none` exactly off the key list. -/
theorem findVal_none_iff (g : Groups) (c : Str) :
    findVal g c = none ↔ c ∉ g.map Prod.fst := by
  induction g with
  | nil => simp [findVal]
  | cons kv t ih =>
      obtain ⟨k, v⟩ := kv
      by_cases h : k = c
      · subst h; simp [findVal]
      · have h2 : findVal ((k, v) :: t) c = findVal t c := by simp [findVal, h]
        rw [h2, ih, List.map_cons]
        constructor
        · intro hnot
          simp only [List.mem_cons, not_or]
          exact ⟨fun hh => h hh.symm, hnot⟩
        · intro hnot
          simp only [List.mem_cons, not_or] at hnot
          exact hnot.2

/-- Dropping empty categories: with unique keys, a lookup after the filter
is the old lookup with empty lists turned into misses. -/
theorem findVal_filterNonempty (g : Groups) (c : Str)
    (h : (g.map Prod.fst).Nodup) :
    findVal (g.filter (fun kv => !kv.2.isEmpty)) c =
      match findVal g c with
      | none => none
      | some v => if v.isEmpty then none else some v := by
  induction g with
  | nil => simp [findVal]
  | cons kv t ih =>
      obtain ⟨k, v⟩ := kv
      simp only [List.map_cons, List.nodup_cons] at h
      obtain ⟨hk, ht⟩ := h
      cases hv : v.isEmpty with
      | false =>
          by_cases hc : k = c
          · subst hc; simp [List.filter_cons, hv, findVal]
          · simp [List.filter_cons, hv, findVal, hc, ih ht]
      | true =>
          by_cases hc : k = c
          · subst hc
            have hnone : findVal t k = none := (findVal_none_iff t k).mpr hk
            have : findVal (t.filter (fun kv => !kv.2.isEmpty)) k = none := by
              rw [ih ht, hnone]
            simp [List.filter_cons, hv, findVal, this]
          · simp [List.filter_cons, hv, findVal, hc, ih ht]

/-- C5: grouping places under each category exactly the entries whose
(`"Core"`-normalized) category is that string, in input order; a category
— taxonomy-declared or created on demand — is a key of the result iff it
holds at least one entry, so empty taxonomy categories are absent. -/
theorem claim_C5_grouping (es : List DocEntry) (c : Str) :
    findVal (groupByCategory es) c =
      (if (es.filter (fun e => normCat e = c)).isEmpty then none
       else some (es.filter (fun e => normCat e = c))) ∧
    keyMem (groupByCategory es) c =
      !(es.filter (fun e => normCat e = c)).isEmpty := by
  have hnodup : (((CATEGORY_ORDER.map (fun k => (k, ([] : List DocEntry)))).map
      Prod.fst)).Nodup := by
    decide
  have hmain :
      findVal (groupByCategory es) c =
        (if (es.filter (fun e => normCat e = c)).isEmpty then none
         else some (es.filter (fun e => normCat e = c))) := by
    unfold groupByCategory
    rw [findVal_filterNonempty _ _ (nodup_keys_foldl _ _ hnodup),
      findVal_foldl, findVal_preCreate]
    by_cases hco : c ∈ CATEGORY_ORDER
    · simp only [if_pos hco]
      cases hemp : (es.filter (fun e => normCat e = c)).isEmpty <;>
        simp [hemp]
    · simp only [if_neg hco]
      cases hemp : (es.filter (fun e => normCat e = c)).isEmpty <;>
        simp [hemp]
  refine ⟨hmain, ?_⟩
  rw [keyMem_eq_isSome, hmain]
  cases hemp : (es.filter (fun e => normCat e = c)).isEmpty <;> simp

-- ── Anchor lemmas (for C7 and C9) ───────────────────────────────────────────

/-- The character set `[a-z0-9_-]` of `make_anchor` output (codes 97-122
`a-z`, 48-57 `0-9`, 95 `_`, 45 `-`). -/
def isAnchorChar (c : Char) : Bool :=
  (97 ≤ c.toNat && c.toNat ≤ 122) || (48 ≤ c.toNat && c.toNat ≤ 57) ||
    c.toNat = 95 || c.toNat = 45

theorem toNat_asciiLower_upper (c : Char) (h : 65 ≤ c.toNat ∧ c.toNat ≤ 90) :
    (asciiLower c).toNat = c.toNat + 32 := by
  unfold asciiLower
  rw [dif_pos h]
  rfl

theorem asciiLower_of_not_upper (c : Char) (h : ¬(65 ≤ c.toNat ∧ c.toNat ≤ 90)) :
    asciiLower c = c := by
  unfold asciiLower
  rw [dif_neg h]

/-- Substituting then lowercasing lands every character in `[a-z0-9_-]`. -/
theorem isAnchorChar_after_sub_lower (c : Char) :
    isAnchorChar (asciiLower (anchorSub c)) = true := by
  by_cases hk : isAnchorKeep c = true
  · rw [anchorSub, if_pos hk]
    by_cases up : 65 ≤ c.toNat ∧ c.toNat ≤ 90
    · simp only [isAnchorChar, toNat_asciiLower_upper c up]
      simp only [Bool.or_eq_true, Bool.and_eq_true, decide_eq_true_eq]
      omega
    · rw [asciiLower_of_not_upper c up]
      simp only [isAnchorKeep, Bool.or_eq_true, Bool.and_eq_true,
        decide_eq_true_eq] at hk
      simp only [isAnchorChar, Bool.or_eq_true, Bool.and_eq_true,
        decide_eq_true_eq]
      omega
  · rw [anchorSub, if_neg hk]
    decide

/-- `[a-z0-9_-]` characters pass the substitution unchanged. -/
theorem anchorSub_of_anchorChar (c : Char) (h : isAnchorChar c = true) :
    anchorSub c = c := by
  rw [anchorSub, if_pos]
  simp only [isAnchorChar, Bool.or_eq_true, Bool.and_eq_true,
    decide_eq_true_eq] at h
  simp only [isAnchorKeep, Bool.or_eq_true, Bool.and_eq_true,
    decide_eq_true_eq]
  omega

/-- `[a-z0-9_-]` characters are already lowercase. -/
theorem asciiLower_of_anchorChar (c : Char) (h : isAnchorChar c = true) :
    asciiLower c = c := by
  apply asciiLower_of_not_upper
  simp only [isAnchorChar, Bool.or_eq_true, Bool.and_eq_true,
    decide_eq_true_eq] at h
  omega

/-- The head of a `dropWhile` result fails the predicate. -/
theorem dropWhile_head_false {α : Type} (p : α → Bool) (l : List α) (c : α)
    (t : List α) (h : l.dropWhile p = c :: t) : p c = false := by
  induction l with
  | nil => simp at h
  | cons a l' ih =>
      rw [List.dropWhile_cons] at h
      by_cases hp : p a = true
      · exact ih (by rwa [if_pos hp] at h)
      · rw [if_neg hp] at h
        cases h
        exact Bool.not_eq_true _ ▸ Bool.of_not_eq_true hp

/-- Mapping a function that fixes every member is the identity. -/
theorem map_id_of_mem {α : Type} (f : α → α) (l : List α)
    (h : ∀ x ∈ l, f x = x) : l.map f = l := by
  induction l with
  | nil => rfl
  | cons a t ih =>
      rw [List.map_cons, h a (List.mem_cons_self a t),
        ih (fun x hx => h x (List.mem_cons_of_mem a hx))]

/-- Members of a `dropWhileRight` result are members of the input. -/
theorem mem_of_mem_dropWhileRight (p : Char → Bool) (l : Str) (c : Char)
    (h : c ∈ dropWhileRight p l) : c ∈ l := by
  rw [dropWhileRight, List.mem_reverse] at h
  exact List.mem_reverse.mp ((List.dropWhile_sublist p).mem h)

/-- Every character of a `make_anchor` result is in `[a-z0-9_-]`. -/
theorem makeAnchor_all_anchorChar (s : Str) :
    (makeAnchor s).all isAnchorChar = true := by
  rw [List.all_eq_true]
  intro c hc
  have h1 : c ∈ (s.map anchorSub).map asciiLower := by
    have h2 := mem_of_mem_dropWhileRight _ _ _ hc
    exact (List.dropWhile_sublist _).mem h2
  rw [List.map_map] at h1
  obtain ⟨a, _, rfl⟩ := List.mem_map.mp h1
  exact isAnchorChar_after_sub_lower a

/-- `dropWhileRight` keeps a prefix of its input. -/
theorem dropWhileRight_prefix (p : Char → Bool) (l : Str) :
    ∃ r, l = dropWhileRight p l ++ r := by
  refine ⟨(l.reverse.takeWhile p).reverse, ?_⟩
  conv_lhs => rw [← List.reverse_reverse l,
    ← List.takeWhile_append_dropWhile p l.reverse]
  rw [List.reverse_append, dropWhileRight]

/-- `make_anchor` output never starts with `-`. -/
theorem makeAnchor_head_ne_dash (s : Str) :
    ((makeAnchor s).head? == some '-') = false := by
  cases hu : makeAnchor s with
  | nil => rfl
  | cons c t =>
      rw [List.head?_cons]
      simp only [makeAnchor] at hu
      obtain ⟨r, hr⟩ := dropWhileRight_prefix (· = '-')
        (((s.map anchorSub).map asciiLower).dropWhile (· = '-'))
      rw [hu] at hr
      have hc := dropWhile_head_false (· = '-') ((s.map anchorSub).map asciiLower)
        c (t ++ r) (by rw [hr]; rfl)
      simpa using hc

/-- `make_anchor` output never ends with `-`. -/
theorem makeAnchor_last_ne_dash (s : Str) :
    ((makeAnchor s).getLast? == some '-') = false := by
  rw [← List.head?_reverse]
  simp only [makeAnchor, dropWhileRight, List.reverse_reverse]
  cases hu : (((s.map anchorSub).map asciiLower).dropWhile (· = '-')).reverse.dropWhile
      (· = '-') with
  | nil => rfl
  | cons c t =>
      rw [List.head?_cons]
      have hc := dropWhile_head_false (· = '-') _ c t hu
      simpa using hc

/-- A list whose head is not `-` survives `dropWhile (· = '-')`. -/
theorem dropWhile_dash_of_head (l : Str)
    (h : (l.head? == some '-') = false) : l.dropWhile (· = '-') = l := by
  cases l with
  | nil => rfl
  | cons c t =>
      rw [List.head?_cons] at h
      rw [List.dropWhile_cons, if_neg (by simpa using h)]

/-- C7: the anchor generator is idempotent, its output uses only
`[a-z0-9_-]` (so it matches `^[a-z0-9_-]*$`), and the output neither
starts nor ends with `-`. -/
theorem claim_C7_anchor_idempotent (s : Str) :
    makeAnchor (makeAnchor s) = makeAnchor s ∧
    (makeAnchor s).all isAnchorChar = true ∧
    ((makeAnchor s).head? == some '-') = false ∧
    ((makeAnchor s).getLast? == some '-') = false := by
  refine ⟨?_, makeAnchor_all_anchorChar s, makeAnchor_head_ne_dash s,
    makeAnchor_last_ne_dash s⟩
  have hall := List.all_eq_true.mp (makeAnchor_all_anchorChar s)
  conv_lhs => rw [makeAnchor]
  rw [map_id_of_mem anchorSub _ (fun x hx => anchorSub_of_anchorChar x (hall x hx)),
    map_id_of_mem asciiLower _ (fun x hx => asciiLower_of_anchorChar x (hall x hx)),
    dropWhile_dash_of_head _ (makeAnchor_head_ne_dash s)]
  rw [dropWhileRight, dropWhile_dash_of_head, List.reverse_reverse]
  rw [List.head?_reverse]
  exact makeAnchor_last_ne_dash s

-- ── Signature-match decomposition (for C3) ──────────────────────────────────

/-- Soundness of the lazy parameter scan: a successful `findParams` splits
its input at a `)` whose tail matches, and the params capture is the
accumulator (reversed) plus everything before that `)`. -/
theorem findParams_decomp (pending : Str) :
    ∀ (acc p : Str) (r : Option Str), findParams pending acc = some (p, r) →
      ∃ q w, pending = q ++ ')' :: w ∧ p = acc.reverse ++ q ∧
        tailMatch w = some r := by
  induction pending with
  | nil => intro acc p r h; simp [findParams] at h
  | cons c rest ih =>
      intro acc p r h
      rw [findParams] at h
      by_cases hc : c = ')'
      · rw [if_pos hc] at h
        subst hc
        cases ht : tailMatch rest with
        | some r' =>
            rw [ht] at h
            obtain ⟨hp, hr⟩ := Prod.mk.injEq .. ▸ Option.some.injEq .. ▸ h
            exact ⟨[], rest, rfl, by simp [← hp], by rw [ht, hr]⟩
        | none =>
            rw [ht] at h
            obtain ⟨q', w, hrest, hp, htm⟩ := ih (')' :: acc) p r h
            refine ⟨')' :: q', w, by simp [hrest], ?_, htm⟩
            rw [hp, List.reverse_cons, List.append_assoc]
            rfl
      · rw [if_neg hc] at h
        obtain ⟨q', w, hrest, hp, htm⟩ := ih (c :: acc) p r h
        refine ⟨c :: q', w, by simp [hrest], ?_, htm⟩
        rw [hp, List.reverse_cons, List.append_assoc]
        rfl

/-- A tail match with no arrow clause means the text after the closing
`)` is all whitespace. -/
theorem tailMatch_none_all_ws (w : Str) (h : tailMatch w = some none) :
    w.all pyIsSpace = true := by
  rw [List.all_eq_true]
  rw [show (∀ x ∈ w, pyIsSpace x = true) ↔ w.dropWhile pyIsSpace = []
    from (List.dropWhile_eq_nil_iff).symm]
  unfold tailMatch at h
  split at h
  · assumption
  · split at h
    · simp at h
    · split at h <;> simp at h
  · simp at h

/-- Unfolding a no-arrow signature match: the input decomposes as name,
whitespace, `(`, params, `)`, trailing whitespace — so the matched `)` is
the last `)` of the signature. -/
theorem matchSig_decomp (s n p : Str) (h : matchSig s = some ⟨n, p, none⟩) :
    ∃ w₁ w₂, s = n ++ w₁ ++ '(' :: (p ++ ')' :: w₂) ∧
      w₁.all pyIsSpace = true ∧ w₂.all pyIsSpace = true := by
  simp only [matchSig] at h
  split at h
  · simp at h
  · split at h
    · rename_i rest heq
      rw [Option.map_eq_some'] at h
      obtain ⟨⟨p', r'⟩, hfp, hmk⟩ := h
      obtain ⟨hn, hp, hr⟩ := SigParts.mk.injEq .. ▸ hmk
      subst hn hp hr
      obtain ⟨q, w, hrest, hq, htm⟩ := findParams_decomp rest [] p' none hfp
      simp only [List.reverse_nil, List.nil_append] at hq
      subst hq
      refine ⟨(s.dropWhile isWordChar).takeWhile pyIsSpace, w, ?_,
        List.all_takeWhile .., tailMatch_none_all_ws w htm⟩
      conv_lhs => rw [← List.takeWhile_append_dropWhile isWordChar s]
      rw [List.append_assoc]
      congr 1
      conv_lhs => rw [← List.takeWhile_append_dropWhile pyIsSpace
        (s.dropWhile isWordChar)]
      rw [heq, hrest]
    · simp at h

/-- C3 counterexample: the signature `f(g(x), y)` has a parenthesized
sub-expression in its parameter list, yet the structural match succeeds
(absorbing the inner parentheses into the params capture) instead of
falling back to a single verbatim token. -/
theorem claim_C3_counterexample :
    matchSig (("f(g(x), y)").data) =
      some ⟨("f").data, ("g(x), y").data, none⟩ ∧
    formatSignatureHtml (("f(g(x), y)").data) ≠
      ("<span class=\"fn\">").data ++ escape (("f(g(x), y)").data) ++
        ("</span>").data := by
  constructor
  · decide
  · decide

/-- C3 (amended): the params capture extends to the first `)` whose
remainder parses as an optional arrow clause; when no arrow clause
follows, everything after the matched `)` is whitespace, so the capture
extends exactly to the last `)` of the signature.  Parenthesized
return-type text after an arrow is tolerated, and a parenthesized
sub-expression inside the parameter list does not make the match fail —
it is absorbed into the params capture. -/
theorem claim_C3_amended :
    (∀ s n p, matchSig s = some ⟨n, p, none⟩ →
      ∃ w₁ w₂, s = n ++ w₁ ++ '(' :: (p ++ ')' :: w₂) ∧
        w₁.all pyIsSpace = true ∧ w₂.all pyIsSpace = true ∧
        (')' ∈ w₂) = False) ∧
    matchSig (("f(x) -> (A) -> B").data) =
      some ⟨("f").data, ("x").data, some (("(A) -> B").data)⟩ ∧
    matchSig (("f(g(x), y)").data) =
      some ⟨("f").data, ("g(x), y").data, none⟩ := by
  refine ⟨fun s n p h => ?_, by decide, by decide⟩
  obtain ⟨w₁, w₂, hs, h₁, h₂⟩ := matchSig_decomp s n p h
  refine ⟨w₁, w₂, hs, h₁, h₂, ?_⟩
  simp only [eq_iff_iff, iff_false]
  intro hmem
  have := List.all_eq_true.mp h₂ ')' hmem
  simp [pyIsSpace] at this

/-- Witness for C3 (amended) at the no-arrow signature `f(x: Int) `: the
decomposition exists with all-whitespace padding. -/
theorem claim_C3_amended_witness :
    matchSig (("f(x: Int) ").data) =
      some ⟨("f").data, ("x: Int").data, none⟩ ∧
    ∃ w₁ w₂, ("f(x: Int) ").data =
        ("f").data ++ w₁ ++ '(' :: (("x: Int").data ++ ')' :: w₂) ∧
      w₁.all pyIsSpace = true ∧ w₂.all pyIsSpace = true ∧
      (')' ∈ w₂) = False :=
  ⟨by decide,
    claim_C3_amended.1 (("f(x: Int) ").data) (("f").data) (("x: Int").data)
      (by decide)⟩

-- ── Escaped-embedding safety (for C9) ───────────────────────────────────────

/-- A character that cannot open or close markup or break out of a
double- or single-quoted attribute value. -/
def noRawSpecial (c : Char) : Bool :=
  !(c = '<' || c = '>' || c = '\x22' || c = '\x27')

/-- The table of static HTML fragments the renderer interleaves with
data: the template segments, the empty-state constants and the literal
fragments of the sidebar/content/signature/example builders. -/
def staticPieces : List Str :=
  [ htmlTpl0, htmlTpl1, htmlTpl2, htmlTpl3, htmlTpl4,
    emptyContentHtml, emptySidebarHtml, paramSep,
    ("        <a href=\"#").data,
    ("\" class=\"sidebar-link\" data-cat=\"").data,
    ("\">").data,
    ("<span class=\"sidebar-count\">").data,
    ("</span></a>\n").data,
    ("      <div class=\"sidebar-section\">\n        <div class=\"sidebar-heading\">").data,
    ("</div>\n").data,
    ("      </div>\n").data,
    ("      <div class=\"doc-entry\" id=\"").data,
    ("\" data-name=\"").data,
    ("\" data-desc=\"").data,
    ("\">\n").data,
    ("        <div class=\"doc-sig\">").data,
    ("        <p class=\"doc-desc\">").data,
    ("</p>\n").data,
    ("        <div class=\"doc-examples\">\n").data,
    ("          <pre><code>").data,
    ("</code></pre>\n").data,
    ("        </div>\n").data,
    ("    <div class=\"doc-category\" id=\"").data,
    ("      <div class=\"section-label\">").data,
    ("      <h2 class=\"section-title\">").data,
    ("</h2>\n").data,
    ("    </div>\n").data,
    ("<span class=\"text\">").data,
    ("</span><span class=\"op\">:</span> <span class=\"typ\">").data,
    ("</span>").data,
    ("<span class=\"fn\">").data,
    ("</span><span class=\"text\">(</span>").data,
    ("<span class=\"text\">)</span>").data,
    (" <span class=\"op\">-&gt;</span> <span class=\"typ\">").data,
    ("<span class=\"cmt\">").data ]

/-- A string assembled exclusively from static template fragments,
`escape`d data, `make_anchor`ed data and decimal renderings of counts:
scanned input can only enter such a string through `escape` or
`make_anchor`. -/
inductive HtmlSafe : Str → Prop where
  | nil : HtmlSafe []
  | piece (s t : Str) : s ∈ staticPieces → HtmlSafe t → HtmlSafe (s ++ t)
  | esc (s t : Str) : HtmlSafe t → HtmlSafe (escape s ++ t)
  | anch (s t : Str) : HtmlSafe t → HtmlSafe (makeAnchor s ++ t)
  | num (n : Nat) (t : Str) : HtmlSafe t → HtmlSafe ((toString n).data ++ t)

theorem htmlSafe_append {a b : Str} (ha : HtmlSafe a) (hb : HtmlSafe b) :
    HtmlSafe (a ++ b) := by
  induction ha with
  | nil => simpa using hb
  | piece s t hs _ ih => rw [List.append_assoc]; exact HtmlSafe.piece s _ hs ih
  | esc s t _ ih => rw [List.append_assoc]; exact HtmlSafe.esc s _ ih
  | anch s t _ ih => rw [List.append_assoc]; exact HtmlSafe.anch s _ ih
  | num n t _ ih => rw [List.append_assoc]; exact HtmlSafe.num n _ ih

theorem htmlSafe_ofPiece (s : Str) (h : s ∈ staticPieces) : HtmlSafe s := by
  simpa using HtmlSafe.piece s [] h HtmlSafe.nil

theorem htmlSafe_ofEsc (s : Str) : HtmlSafe (escape s) := by
  simpa using HtmlSafe.esc s [] HtmlSafe.nil

theorem htmlSafe_ofAnch (s : Str) : HtmlSafe (makeAnchor s) := by
  simpa using HtmlSafe.anch s [] HtmlSafe.nil

theorem htmlSafe_ofNum (n : Nat) : HtmlSafe ((toString n).data) := by
  simpa using HtmlSafe.num n [] HtmlSafe.nil

theorem htmlSafe_flatMap {α : Type} (f : α → Str) (l : List α)
    (h : ∀ x ∈ l, HtmlSafe (f x)) : HtmlSafe (l.flatMap f) := by
  induction l with
  | nil => exact HtmlSafe.nil
  | cons a t ih =>
      rw [List.flatMap_cons]
      exact htmlSafe_append (h a (List.mem_cons_self a t))
        (ih (fun x hx => h x (List.mem_cons_of_mem a hx)))

theorem htmlSafe_intercalate (xs : List Str)
    (h : ∀ x ∈ xs, HtmlSafe x) : HtmlSafe (List.intercalate paramSep xs) := by
  induction xs with
  | nil => exact HtmlSafe.nil
  | cons x t ih =>
      cases t with
      | nil => simpa [List.intercalate] using h x (by simp)
      | cons y t' =>
          rw [show List.intercalate paramSep (x :: y :: t') =
              x ++ (paramSep ++ List.intercalate paramSep (y :: t')) by
            simp [List.intercalate, List.intersperse]]
          exact htmlSafe_append (h x (by simp))
            (htmlSafe_append (htmlSafe_ofPiece paramSep (by simp [staticPieces]))
              (ih (fun z hz => h z (List.mem_cons_of_mem x hz))))

theorem htmlSafe_formatParam (p : Str) : HtmlSafe (formatParam p) := by
  unfold formatParam
  split <;>
  repeat'
    first
    | exact HtmlSafe.nil
    | exact htmlSafe_ofEsc _
    | apply htmlSafe_append
    | exact htmlSafe_ofPiece _ (by simp [staticPieces])

theorem htmlSafe_formatSignatureHtml (sig : Str) :
    HtmlSafe (formatSignatureHtml sig) := by
  unfold formatSignatureHtml
  split <;>
  repeat'
    first
    | exact HtmlSafe.nil
    | exact htmlSafe_ofEsc _
    | exact htmlSafe_intercalate _ (fun x hx => by
        obtain ⟨y, _, rfl⟩ := List.mem_map.mp hx
        exact htmlSafe_formatParam y)
    | apply htmlSafe_append
    | split
    | exact htmlSafe_ofPiece _ (by simp [staticPieces])

theorem htmlSafe_formatExampleHtml (ex : Str) :
    HtmlSafe (formatExampleHtml ex) := by
  unfold formatExampleHtml
  split <;>
  repeat'
    first
    | exact HtmlSafe.nil
    | exact htmlSafe_ofEsc _
    | apply htmlSafe_append
    | exact htmlSafe_ofPiece _ (by simp [staticPieces])

theorem htmlSafe_exampleBlock (x : Str) :
    HtmlSafe (("          <pre><code>").data ++ formatExampleHtml x ++
      ("</code></pre>\n").data) :=
  htmlSafe_append
    (htmlSafe_append (htmlSafe_ofPiece _ (by simp [staticPieces]))
      (htmlSafe_formatExampleHtml x))
    (htmlSafe_ofPiece _ (by simp [staticPieces]))

theorem htmlSafe_entryHtml (e : DocEntry) : HtmlSafe (entryHtml e) := by
  simp only [entryHtml]
  repeat'
    first
    | exact HtmlSafe.nil
    | exact htmlSafe_ofEsc _
    | exact htmlSafe_ofAnch _
    | exact htmlSafe_formatSignatureHtml _
    | exact htmlSafe_flatMap _ _ (fun x _ => htmlSafe_exampleBlock x)
    | apply htmlSafe_append
    | split
    | exact htmlSafe_ofPiece _ (by simp [staticPieces])

theorem htmlSafe_categoryHtml (groups : Groups) (secName cat : Str) :
    HtmlSafe (categoryHtml groups secName cat) := by
  unfold categoryHtml
  repeat'
    first
    | exact HtmlSafe.nil
    | exact htmlSafe_ofEsc _
    | exact htmlSafe_ofAnch _
    | exact htmlSafe_flatMap _ _ (fun x _ => htmlSafe_entryHtml x)
    | apply htmlSafe_append
    | exact htmlSafe_ofPiece _ (by simp [staticPieces])

theorem htmlSafe_sidebarLink (groups : Groups) (cat : Str) :
    HtmlSafe (sidebarLink groups cat) := by
  unfold sidebarLink
  repeat'
    first
    | exact HtmlSafe.nil
    | exact htmlSafe_ofEsc _
    | exact htmlSafe_ofAnch _
    | exact htmlSafe_ofNum _
    | apply htmlSafe_append
    | exact htmlSafe_ofPiece _ (by simp [staticPieces])

theorem htmlSafe_sidebarHtmlFinal (groups : Groups) :
    HtmlSafe (sidebarHtmlFinal groups) := by
  unfold sidebarHtmlFinal sidebarHtmlRaw
  split
  · exact htmlSafe_ofPiece _ (by simp [staticPieces])
  · refine htmlSafe_flatMap _ _ (fun sec _ => ?_)
    simp only [sidebarSection]
    split
    · exact HtmlSafe.nil
    · repeat'
        first
        | exact HtmlSafe.nil
        | exact htmlSafe_ofEsc _
        | exact htmlSafe_flatMap _ _ (fun c _ => htmlSafe_sidebarLink groups c)
        | apply htmlSafe_append
        | exact htmlSafe_ofPiece _ (by simp [staticPieces])

theorem htmlSafe_contentHtmlFinal (groups : Groups) :
    HtmlSafe (contentHtmlFinal groups) := by
  unfold contentHtmlFinal contentHtmlRaw
  split
  · exact htmlSafe_ofPiece _ (by simp [staticPieces])
  · refine htmlSafe_flatMap _ _ (fun sec _ => ?_)
    unfold contentSection
    exact htmlSafe_flatMap _ _ (fun c _ => htmlSafe_categoryHtml groups sec.1 c)

/-- `html.escape` removes every raw `<`, `>`, `"`, `'` from one
character's rendering. -/
theorem escChar_noRawSpecial (c : Char) :
    (escChar c).all noRawSpecial = true := by
  unfold escChar
  split_ifs with h1 h2 h3 h4 h5
  · decide
  · decide
  · decide
  · decide
  · decide
  · simp [noRawSpecial, h2, h3, h4, h5]

/-- `html.escape` output contains no raw `<`, `>`, `"` or `'`. -/
theorem escape_noRawSpecial (s : Str) :
    (escape s).all noRawSpecial = true := by
  induction s with
  | nil => rfl
  | cons c t ih =>
      rw [show escape (c :: t) = escChar c ++ escape t from rfl,
        List.all_append]
      rw [escChar_noRawSpecial c, ih]
      rfl

/-- C9: the whole rendered document is assembled exclusively from static
template fragments, numeric counts, `escape`d data and `make_anchor`ed
data — every string derived from scanned input passes through `escape`
(or the `[a-z0-9_-]`-sanitizing `make_anchor` for URL anchors) before
being embedded; `escape` output carries no raw `<`, `>`, `"`, `'`, and
`make_anchor` output only `[a-z0-9_-]`, so no raw markup from a doc
comment reaches the page. -/
theorem claim_C9_escaped_embedding :
    (∀ groups : Groups, HtmlSafe (fullHtml groups)) ∧
    (∀ s : Str, (escape s).all noRawSpecial = true) ∧
    (∀ s : Str, (makeAnchor s).all isAnchorChar = true) := by
  refine ⟨fun groups => ?_, escape_noRawSpecial, makeAnchor_all_anchorChar⟩
  unfold fullHtml
  repeat'
    first
    | exact htmlSafe_sidebarHtmlFinal groups
    | exact htmlSafe_contentHtmlFinal groups
    | exact htmlSafe_ofNum _
    | apply htmlSafe_append
    | exact htmlSafe_ofPiece _ (by simp [staticPieces])
